import Mathlib

/-!
Shallow embedding of the resilient realtime-subscription client
(app/hooks/useRealtime.js) and proofs of its specified properties.

The hook keeps its mutable state in React state variables and refs
(isConnected, connectionStatus, error, retryCount, lastHeartbeat,
channelRef, heartbeatRef, retryTimeoutRef, isNetworkConnectedRef).  We
model that state as an explicit record and every operation of the hook
as a pure function on it.  Timer slots are Option fields: a pending
timer is a some value; arming writes the slot (the source clears the
previous handle first, so the slot semantics coincide), cancelling
writes none, and a timer callback is modelled as a separate transition
that is a no-op when its slot is empty (a cleared timer never fires).
Transport interactions (channel open, subscribe, unsubscribe, broadcast
send, presence track/untrack) are recorded in an append-only log so that
claims of the form "performs no transport call" are statements about the
log.  Channels ever created are kept in a registry with an isOpen flag;
a live channel handle is an open registry entry.  The transport
collaborators themselves are modelled as total (the spec fixes their
interface at the boundary); the async callbacks they invoke
(the subscribe status callback, which the source duplicates in its
system-event handler) are separate transitions.  Payloads and
timestamps are modelled as natural numbers, errors as their message
strings.
-/

namespace Realtime

/-- Errors are carried by message string, as the source constructs
plain Error objects from strings. -/
abbrev JsError := String

/-- The three postgres-changes operation kinds routed by the hook. -/
inductive OpKind
  | insert
  | update
  | delete
deriving DecidableEq, Repr

/-- The event name string the source compares against for each kind. -/
def kindName : OpKind → String
  | OpKind.insert => "INSERT"
  | OpKind.update => "UPDATE"
  | OpKind.delete => "DELETE"

/-- The config field event in the source is a JavaScript value that is
either a string (possibly the wildcard) or an array of strings. -/
inductive JsEvent
  | str (s : String)
  | arr (l : List String)
deriving DecidableEq, Repr

/-- JavaScript String.prototype.includes: substring containment. -/
def strContains (hay needle : String) : Bool :=
  (List.range (hay.length + 1)).any
    (fun i => needle.toList.isPrefixOf (hay.toList.drop i))

/-- JavaScript value.includes(needle) for the event config value:
substring test on strings, membership on arrays. -/
def jsIncludes (e : JsEvent) (needle : String) : Bool :=
  match e with
  | JsEvent.str s => strContains s needle
  | JsEvent.arr l => l.contains needle

/-- The guard the source uses to decide whether to register the
postgres-changes route for a kind:
event === wildcard, or event === name, or event.includes(name). -/
def eventAllowsKind (e : JsEvent) (k : OpKind) : Bool :=
  e == JsEvent.str "*" || e == JsEvent.str (kindName k) || jsIncludes e (kindName k)

/-- The immutable subscription config destructured at the top of
useRealtime.  Handlers are optional; a present handler is a function
from the primary payload to an optional raised error (none means the
handler returned normally).  hasOnError records whether an onError
handler was supplied (the source calls it by optional chaining). -/
structure RConfig where
  table : String
  enabled : Bool
  event : JsEvent
  retryAttempts : Nat
  retryDelay : Nat
  heartbeatInterval : Nat
  onInsert : Option (Nat → Option JsError)
  onUpdate : Option (Nat → Option JsError)
  onDelete : Option (Nat → Option JsError)
  hasOnError : Bool

/-- One transport channel created by connect: its identity, whether the
handle is still live (not yet unsubscribed), the transport-maintained
channel state string (joined once subscribed), and which
postgres-changes routes were registered on it. -/
structure ChannelRec where
  id : Nat
  isOpen : Bool
  chanState : String
  routeInsert : Bool
  routeUpdate : Bool
  routeDelete : Bool
deriving DecidableEq, Repr

/-- A call made on the transport, recorded in an append-only log. -/
inductive TransportCall
  | openChannel (id : Nat)
  | subscribeChannel (id : Nat)
  | unsubscribeChannel (id : Nat)
  | sendBroadcast (id : Nat) (event : String) (payload : Nat)
  | trackCall (id : Nat) (payload : Nat)
  | untrackCall (id : Nat)
deriving DecidableEq, Repr

/-- The whole mutable state of one useRealtime client. -/
structure RState where
  isConnected : Bool
  connectionStatus : String
  error : Option JsError
  retryCount : Nat
  lastHeartbeat : Option Nat
  channelRef : Option Nat
  channels : List ChannelRec
  heartbeatTimer : Option Nat
  retryTimer : Option (Nat × Nat)
  isNetworkConnected : Bool
  onErrorCalls : List JsError
  handlerCalls : List (String × Nat)
  transportCalls : List TransportCall
  nextChannelId : Nat
  nextTimerId : Nat
deriving DecidableEq, Repr

/-- Initial hook state: status disconnected, no channel, no timers,
network assumed reachable (the source initialises the ref to true). -/
def initState : RState :=
  { isConnected := false
    connectionStatus := "disconnected"
    error := none
    retryCount := 0
    lastHeartbeat := none
    channelRef := none
    channels := []
    heartbeatTimer := none
    retryTimer := none
    isNetworkConnected := true
    onErrorCalls := []
    handlerCalls := []
    transportCalls := []
    nextChannelId := 0
    nextTimerId := 0 }

/-- Number of live channel handles. -/
def liveCount (s : RState) : Nat :=
  s.channels.countP (fun c => c.isOpen)

/-- Cleanup of the existing connection inside connect and disconnect:
await channelRef.current.unsubscribe(); channelRef.current = null. -/
def closeCurrent (s : RState) : RState :=
  match s.channelRef with
  | none => s
  | some cid =>
      { s with
        channels := s.channels.map
          (fun c => if c.id = cid then { c with isOpen := false } else c)
        transportCalls := s.transportCalls ++ [TransportCall.unsubscribeChannel cid]
        channelRef := none }

/-- startHeartbeat: clears any existing interval handle, then arms a
fresh recurring timer into the single heartbeat slot. -/
def startHeartbeat (s : RState) : RState :=
  { s with heartbeatTimer := some s.nextTimerId, nextTimerId := s.nextTimerId + 1 }

/-- stopHeartbeat: clearInterval and null the slot when armed. -/
def stopHeartbeat (s : RState) : RState :=
  match s.heartbeatTimer with
  | some _ => { s with heartbeatTimer := none }
  | none => s

/-- Whether the current channel handle exists and its transport state
is joined — the guard of the heartbeat interval callback. -/
def chanJoined (s : RState) : Bool :=
  match s.channelRef with
  | none => false
  | some cid => s.channels.any (fun c => c.id == cid && c.chanState == "joined")

/-- One firing of the heartbeat interval callback at timestamp now.  A
cleared timer never fires, so the callback is a no-op when the slot is
empty; otherwise it sends the heartbeat broadcast and records
lastHeartbeat only while the channel state is joined. -/
def hbTick (now : Nat) (s : RState) : RState :=
  match s.heartbeatTimer with
  | none => s
  | some _ =>
      if chanJoined s then
        match s.channelRef with
        | some cid =>
            { s with
              transportCalls :=
                s.transportCalls ++ [TransportCall.sendBroadcast cid "heartbeat" now]
              lastHeartbeat := some now }
        | none => s
      else s

/-- The channel record connect creates: routes are registered exactly
for the kinds the event mask guard allows; the transport state starts
closed until the subscription succeeds. -/
def newChannel (cfg : RConfig) (cid : Nat) : ChannelRec :=
  { id := cid
    isOpen := true
    chanState := "closed"
    routeInsert := eventAllowsKind cfg.event OpKind.insert
    routeUpdate := eventAllowsKind cfg.event OpKind.update
    routeDelete := eventAllowsKind cfg.event OpKind.delete }

/-- The channel-creation tail of connect: supabase.channel(...) with the
registered routes, channel.subscribe(...), channelRef.current = channel. -/
def connectFresh (cfg : RConfig) (s2 : RState) : RState :=
  { s2 with
    channels := s2.channels ++ [newChannel cfg s2.nextChannelId]
    channelRef := some s2.nextChannelId
    nextChannelId := s2.nextChannelId + 1
    transportCalls :=
      s2.transportCalls ++
        [TransportCall.openChannel s2.nextChannelId,
         TransportCall.subscribeChannel s2.nextChannelId] }

/-- connect(): early return when disabled, the table is empty (falsy),
or the network ref reports offline; otherwise set status connecting,
clear the error, unsubscribe and null any existing channel, then create
the new channel with the routes the event mask allows and subscribe it. -/
def connect (cfg : RConfig) (s : RState) : RState :=
  if !cfg.enabled || cfg.table == "" || !s.isNetworkConnected then s
  else connectFresh cfg (closeCurrent { s with connectionStatus := "connecting", error := none })

/-- Update the transport state string of the current channel. -/
def setChanState (st : String) (s : RState) : RState :=
  match s.channelRef with
  | none => s
  | some cid =>
      { s with
        channels := s.channels.map
          (fun c => if c.id = cid then { c with chanState := st } else c) }

/-- scheduleRetry(): emit max_retries_exceeded once the retry budget is
spent; otherwise clear any pending retry timeout and arm a fresh
single-shot timer with exponential-backoff delay retryDelay * 2 ^
retryCount, setting status retrying. -/
def scheduleRetry (cfg : RConfig) (s : RState) : RState :=
  if cfg.retryAttempts ≤ s.retryCount then
    { s with connectionStatus := "max_retries_exceeded" }
  else
    { s with
      connectionStatus := "retrying"
      retryTimer := some (s.nextTimerId, cfg.retryDelay * 2 ^ s.retryCount)
      nextTimerId := s.nextTimerId + 1 }

/-- The retry timeout callback: a cleared timer never fires; a pending
one fires once (the slot empties), increments retryCount and calls
connect. -/
def retryFire (cfg : RConfig) (s : RState) : RState :=
  match s.retryTimer with
  | none => s
  | some _ => connect cfg { s with retryTimer := none, retryCount := s.retryCount + 1 }

/-- The channel.subscribe status callback (the source registers the
same logic on its system event): SUBSCRIBED marks the channel joined,
sets connected state and starts the heartbeat; CHANNEL_ERROR and
TIMED_OUT record the failure, stop the heartbeat and schedule a retry;
CLOSED returns to disconnected without retrying. -/
def subscribeCallback (cfg : RConfig) (st : String) (err : Option JsError)
    (s : RState) : RState :=
  if st == "SUBSCRIBED" then
    startHeartbeat
      { setChanState "joined" s with
        isConnected := true, connectionStatus := "connected", retryCount := 0 }
  else if st == "CHANNEL_ERROR" then
    scheduleRetry cfg (stopHeartbeat
      { setChanState "errored" s with
        isConnected := false, connectionStatus := "error"
        error := some (err.getD "Channel subscription error") })
  else if st == "TIMED_OUT" then
    scheduleRetry cfg (stopHeartbeat
      { setChanState "errored" s with
        isConnected := false, connectionStatus := "timeout"
        error := some "Connection timeout" })
  else if st == "CLOSED" then
    stopHeartbeat
      { setChanState "closed" s with
        isConnected := false, connectionStatus := "disconnected" }
  else s

/-- disconnect(): status disconnecting, stop heartbeat, clear the retry
timeout slot, unsubscribe and null the channel, then reset to
disconnected with retryCount 0 and no error.  The transport close is
total at this boundary, so the catch branch of the source is dead. -/
def disconnect (s : RState) : RState :=
  let s1 := stopHeartbeat { s with connectionStatus := "disconnecting" }
  let s2 := { s1 with retryTimer := none }
  let s3 := closeCurrent s2
  { s3 with
    isConnected := false
    connectionStatus := "disconnected"
    error := none
    retryCount := 0 }

/-- The NetInfo listener: store the new reachability in the ref; on
going offline while connected, move to network_disconnected; on coming
online while not connected and enabled, call connect. -/
def netInfoEvent (cfg : RConfig) (online : Bool) (s : RState) : RState :=
  let s1 := { s with isNetworkConnected := online }
  if !online && s.isConnected then
    { s1 with connectionStatus := "network_disconnected", isConnected := false }
  else if online && !s.isConnected && cfg.enabled then
    connect cfg s1
  else s1

/-- reconnect(): reset retryCount, disconnect, then connect again when
enabled and the network is reachable. -/
def reconnect (cfg : RConfig) (s : RState) : RState :=
  if cfg.enabled && (disconnect { s with retryCount := 0 }).isNetworkConnected then
    connect cfg (disconnect { s with retryCount := 0 })
  else disconnect { s with retryCount := 0 }

/-- The error message of the guard in send and trackPresence. -/
def notConnectedMsg : JsError := "Not connected to realtime channel"

/-- send(eventName, payload): throws when the channel handle is absent
or the isConnected flag is false; otherwise transmits the broadcast.
Returns the new state paired with the raised error, if any. -/
def send (eventName : String) (payload : Nat) (s : RState) :
    RState × Option JsError :=
  match s.channelRef with
  | none => (s, some notConnectedMsg)
  | some cid =>
      if !s.isConnected then (s, some notConnectedMsg)
      else
        ({ s with
            transportCalls :=
              s.transportCalls ++ [TransportCall.sendBroadcast cid eventName payload] },
          none)

/-- trackPresence(presence): same guard as send, then channel.track. -/
def trackPresence (payload : Nat) (s : RState) : RState × Option JsError :=
  match s.channelRef with
  | none => (s, some notConnectedMsg)
  | some cid =>
      if !s.isConnected then (s, some notConnectedMsg)
      else
        ({ s with
            transportCalls := s.transportCalls ++ [TransportCall.trackCall cid payload] },
          none)

/-- untrackPresence(): plain early return when there is no channel
handle, otherwise channel.untrack; it has no throwing guard. -/
def untrackPresence (s : RState) : RState × Option JsError :=
  match s.channelRef with
  | none => (s, none)
  | some cid =>
      ({ s with transportCalls := s.transportCalls ++ [TransportCall.untrackCall cid] },
        none)

/-- Which registered route a channel has for a kind. -/
def routeFor (k : OpKind) (c : ChannelRec) : Bool :=
  match k with
  | OpKind.insert => c.routeInsert
  | OpKind.update => c.routeUpdate
  | OpKind.delete => c.routeDelete

/-- Whether an inbound message of kind k is routed on the current
channel: a handle must exist and carry the registered route. -/
def routesTo (k : OpKind) (s : RState) : Bool :=
  match s.channelRef with
  | none => false
  | some cid => s.channels.any (fun c => c.id == cid && routeFor k c)

/-- The configured handler for a kind, if any. -/
def handlerFor (cfg : RConfig) (k : OpKind) : Option (Nat → Option JsError) :=
  match k with
  | OpKind.insert => cfg.onInsert
  | OpKind.update => cfg.onUpdate
  | OpKind.delete => cfg.onDelete

/-- Delivery of one inbound postgres-changes message of kind k: only a
registered route reaches the handler; the handler call is wrapped so
that a raised error is forwarded to onError (when supplied) and nothing
else in the state changes. -/
def dispatchMessage (cfg : RConfig) (k : OpKind) (payload : Nat) (s : RState) : RState :=
  if routesTo k s then
    match handlerFor cfg k with
    | none => s
    | some f =>
        let s1 := { s with handlerCalls := s.handlerCalls ++ [(kindName k, payload)] }
        match f payload with
        | none => s1
        | some e =>
            if cfg.hasOnError then { s1 with onErrorCalls := s1.onErrorCalls ++ [e] }
            else s1
  else s

/-- The externally triggerable transitions of one client, used to
define the reachable states. -/
inductive ROp
  | connectOp
  | disconnectOp
  | reconnectOp
  | subStatus (st : String) (err : Option JsError)
  | netOp (online : Bool)
  | retryFireOp
  | hbTickOp (now : Nat)
  | msgOp (k : OpKind) (p : Nat)
  | sendOp (e : String) (p : Nat)
  | trackOp (p : Nat)
  | untrackOp
deriving Repr

/-- One transition step. -/
def step (cfg : RConfig) (s : RState) (op : ROp) : RState :=
  match op with
  | ROp.connectOp => connect cfg s
  | ROp.disconnectOp => disconnect s
  | ROp.reconnectOp => reconnect cfg s
  | ROp.subStatus st err => subscribeCallback cfg st err s
  | ROp.netOp online => netInfoEvent cfg online s
  | ROp.retryFireOp => retryFire cfg s
  | ROp.hbTickOp now => hbTick now s
  | ROp.msgOp k p => dispatchMessage cfg k p s
  | ROp.sendOp e p => (send e p s).1
  | ROp.trackOp p => (trackPresence p s).1
  | ROp.untrackOp => (untrackPresence s).1

/-- The state after running a sequence of transitions from the initial
state: the reachable states of the client. -/
def run (cfg : RConfig) (ops : List ROp) : RState :=
  ops.foldl (step cfg) initState

/-- A channel carries exactly the routes the config event mask allows. -/
def chanRoutesMatch (cfg : RConfig) (c : ChannelRec) : Prop :=
  c.routeInsert = eventAllowsKind cfg.event OpKind.insert ∧
  c.routeUpdate = eventAllowsKind cfg.event OpKind.update ∧
  c.routeDelete = eventAllowsKind cfg.event OpKind.delete

/-- The state invariant of one client: every live channel handle is the
one held in channelRef, every created channel was registered from the
config event mask, and at most one handle is live. -/
def Inv (cfg : RConfig) (s : RState) : Prop :=
  (∀ c ∈ s.channels, c.isOpen = true → s.channelRef = some c.id) ∧
  (∀ c ∈ s.channels, chanRoutesMatch cfg c) ∧
  liveCount s ≤ 1

/-- A representative config: wildcard event mask, default retry policy
and heartbeat interval of the source. -/
def cfgW : RConfig :=
  { table := "leads"
    enabled := true
    event := JsEvent.str "*"
    retryAttempts := 3
    retryDelay := 1000
    heartbeatInterval := 30000
    onInsert := none
    onUpdate := none
    onDelete := none
    hasOnError := false }

/-- A disabled config that does supply an onError handler. -/
def cfgDisabled : RConfig :=
  { cfgW with enabled := false, hasOnError := true }

/-- A config whose insert handler raises, with onError supplied. -/
def cfgThrow : RConfig :=
  { cfgW with
    onInsert := some (fun _ => some "boom")
    onUpdate := some (fun _ => none)
    hasOnError := true }

/-- A config subscribing to INSERT only, with an update handler that
would raise if it were ever invoked. -/
def cfgInsertOnly : RConfig :=
  { cfgW with
    event := JsEvent.str "INSERT"
    onUpdate := some (fun _ => some "never")
    hasOnError := true }

/-- The state after a successful connect and subscription. -/
def connState : RState :=
  run cfgW [ROp.connectOp, ROp.subStatus "SUBSCRIBED" none]

/-- The state reached by calling connect again while connected: the
source replaces the channel and reports connecting, but leaves the
isConnected flag set. -/
def reconnState : RState :=
  run cfgW [ROp.connectOp, ROp.subStatus "SUBSCRIBED" none, ROp.connectOp]

/-- The state in the middle of a first connect, before the
subscription reports back. -/
def midConnectState : RState :=
  run cfgW [ROp.connectOp]

/-- A state whose retry budget is spent and that still holds a pending
retry timer. -/
def exhaustedState : RState :=
  { initState with retryCount := 3, retryTimer := some (5, 99) }

/-- A connected state under the raising insert handler. -/
def throwConnState : RState :=
  run cfgThrow [ROp.connectOp, ROp.subStatus "SUBSCRIBED" none]

/-- A connected state under the INSERT-only event mask. -/
def insertOnlyConnState : RState :=
  run cfgInsertOnly [ROp.connectOp, ROp.subStatus "SUBSCRIBED" none]

theorem inv_mono (cfg : RConfig) (s s' : RState)
    (hch : s'.channels = s.channels) (href : s'.channelRef = s.channelRef)
    (h : Inv cfg s) : Inv cfg s' := by
  obtain ⟨h1, h2, h3⟩ := h
  refine ⟨?_, ?_, ?_⟩
  · intro c hc hop
    rw [href]
    exact h1 c (hch ▸ hc) hop
  · intro c hc
    exact h2 c (hch ▸ hc)
  · unfold liveCount at h3 ⊢
    rw [hch]
    exact h3

theorem countP_open_eq_zero (l : List ChannelRec)
    (h : ∀ c ∈ l, c.isOpen = false) :
    l.countP (fun c => c.isOpen) = 0 := by
  induction l with
  | nil => rfl
  | cons a t ih =>
      rw [List.countP_cons]
      have ha := h a (List.mem_cons_self a t)
      simp [ha, ih (fun c hc => h c (List.mem_cons_of_mem a hc))]

theorem closeCurrent_closed (cfg : RConfig) (s : RState) (h : Inv cfg s) :
    ∀ c ∈ (closeCurrent s).channels, c.isOpen = false := by
  obtain ⟨h1, _, _⟩ := h
  intro c hc
  unfold closeCurrent at hc
  split at hc
  next href =>
    cases hop : c.isOpen with
    | false => rfl
    | true =>
        have h2 := h1 c hc hop
        rw [href] at h2
        exact Option.noConfusion h2
  next cid href =>
    simp only [List.mem_map] at hc
    rcases hc with ⟨c0, hc0, hfc⟩
    by_cases hid : c0.id = cid
    · rw [if_pos hid] at hfc
      rw [← hfc]
    · rw [if_neg hid] at hfc
      rw [← hfc]
      cases hop : c0.isOpen with
      | false => rfl
      | true =>
          have h2 := h1 c0 hc0 hop
          rw [href] at h2
          exact absurd (Option.some.inj h2).symm hid

theorem routes_closeCurrent (cfg : RConfig) (s : RState)
    (h : ∀ c ∈ s.channels, chanRoutesMatch cfg c) :
    ∀ c ∈ (closeCurrent s).channels, chanRoutesMatch cfg c := by
  intro c hc
  unfold closeCurrent at hc
  split at hc
  next href => exact h c hc
  next cid href =>
    simp only [List.mem_map] at hc
    rcases hc with ⟨c0, hc0, hfc⟩
    have h0 := h c0 hc0
    by_cases hid : c0.id = cid
    · rw [if_pos hid] at hfc
      rw [← hfc]
      exact h0
    · rw [if_neg hid] at hfc
      rw [← hfc]
      exact h0

theorem closeCurrent_inv (cfg : RConfig) (s : RState) (h : Inv cfg s) :
    Inv cfg (closeCurrent s) := by
  have hclosed := closeCurrent_closed cfg s h
  refine ⟨?_, routes_closeCurrent cfg s h.2.1, ?_⟩
  · intro c hc hop
    rw [hclosed c hc] at hop
    exact absurd hop (by decide)
  · unfold liveCount
    rw [countP_open_eq_zero _ hclosed]
    exact Nat.zero_le 1

theorem closeCurrent_live_zero (cfg : RConfig) (s : RState) (h : Inv cfg s) :
    liveCount (closeCurrent s) = 0 := by
  unfold liveCount
  exact countP_open_eq_zero _ (closeCurrent_closed cfg s h)

theorem closeCurrent_channelRef (s : RState) :
    (closeCurrent s).channelRef = none := by
  unfold closeCurrent
  split
  next href => exact href
  next cid href => rfl

theorem closeCurrent_frame (s : RState) :
    (closeCurrent s).retryTimer = s.retryTimer ∧
    (closeCurrent s).heartbeatTimer = s.heartbeatTimer ∧
    (closeCurrent s).isNetworkConnected = s.isNetworkConnected ∧
    (closeCurrent s).retryCount = s.retryCount := by
  unfold closeCurrent
  split
  · exact ⟨rfl, rfl, rfl, rfl⟩
  · exact ⟨rfl, rfl, rfl, rfl⟩

theorem stopHeartbeat_frame (s : RState) :
    (stopHeartbeat s).channels = s.channels ∧
    (stopHeartbeat s).channelRef = s.channelRef ∧
    (stopHeartbeat s).isNetworkConnected = s.isNetworkConnected := by
  unfold stopHeartbeat
  split
  · exact ⟨rfl, rfl, rfl⟩
  · exact ⟨rfl, rfl, rfl⟩

theorem stopHeartbeat_timer (s : RState) :
    (stopHeartbeat s).heartbeatTimer = none := by
  unfold stopHeartbeat
  split
  next t hh => rfl
  next hh => exact hh

theorem scheduleRetry_frame (cfg : RConfig) (s : RState) :
    (scheduleRetry cfg s).channels = s.channels ∧
    (scheduleRetry cfg s).channelRef = s.channelRef := by
  unfold scheduleRetry
  by_cases hb : cfg.retryAttempts ≤ s.retryCount
  · rw [if_pos hb]
    exact ⟨rfl, rfl⟩
  · rw [if_neg hb]
    exact ⟨rfl, rfl⟩

theorem hbTick_frame (now : Nat) (s : RState) :
    (hbTick now s).channels = s.channels ∧
    (hbTick now s).channelRef = s.channelRef := by
  unfold hbTick
  split
  · exact ⟨rfl, rfl⟩
  · split
    · split
      · exact ⟨rfl, rfl⟩
      · exact ⟨rfl, rfl⟩
    · exact ⟨rfl, rfl⟩

theorem dispatch_frame (cfg : RConfig) (k : OpKind) (p : Nat) (s : RState) :
    (dispatchMessage cfg k p s).channels = s.channels ∧
    (dispatchMessage cfg k p s).channelRef = s.channelRef := by
  unfold dispatchMessage
  split
  · split
    · exact ⟨rfl, rfl⟩
    · split
      · exact ⟨rfl, rfl⟩
      · split
        · exact ⟨rfl, rfl⟩
        · exact ⟨rfl, rfl⟩
  · exact ⟨rfl, rfl⟩

theorem send_frame (e : String) (p : Nat) (s : RState) :
    (send e p s).1.channels = s.channels ∧
    (send e p s).1.channelRef = s.channelRef := by
  unfold send
  split
  · exact ⟨rfl, rfl⟩
  · split
    · exact ⟨rfl, rfl⟩
    · exact ⟨rfl, rfl⟩

theorem track_frame (p : Nat) (s : RState) :
    (trackPresence p s).1.channels = s.channels ∧
    (trackPresence p s).1.channelRef = s.channelRef := by
  unfold trackPresence
  split
  · exact ⟨rfl, rfl⟩
  · split
    · exact ⟨rfl, rfl⟩
    · exact ⟨rfl, rfl⟩

theorem untrack_frame (s : RState) :
    (untrackPresence s).1.channels = s.channels ∧
    (untrackPresence s).1.channelRef = s.channelRef := by
  unfold untrackPresence
  split
  · exact ⟨rfl, rfl⟩
  · exact ⟨rfl, rfl⟩

theorem connectFresh_inv (cfg : RConfig) (s2 : RState)
    (hclosed : ∀ c ∈ s2.channels, c.isOpen = false)
    (hroutes : ∀ c ∈ s2.channels, chanRoutesMatch cfg c) :
    Inv cfg (connectFresh cfg s2) ∧ liveCount (connectFresh cfg s2) = 1 := by
  have hlive : liveCount (connectFresh cfg s2) = 1 := by
    unfold liveCount connectFresh
    rw [List.countP_append, countP_open_eq_zero _ hclosed]
    rfl
  refine ⟨⟨?_, ?_, ?_⟩, hlive⟩
  · intro c hc hop
    rcases List.mem_append.mp hc with hm | hm
    · rw [hclosed c hm] at hop
      exact absurd hop (by decide)
    · rw [List.mem_singleton.mp hm]
      rfl
  · intro c hc
    rcases List.mem_append.mp hc with hm | hm
    · exact hroutes c hm
    · rw [List.mem_singleton.mp hm]
      exact ⟨rfl, rfl, rfl⟩
  · rw [hlive]

theorem connect_noop_of_guard (cfg : RConfig) (s : RState)
    (h : (!cfg.enabled || cfg.table == "" || !s.isNetworkConnected) = true) :
    connect cfg s = s := by
  unfold connect
  rw [h]
  rfl

theorem connect_eq_of_guard (cfg : RConfig) (s : RState)
    (he : cfg.enabled = true) (ht : cfg.table ≠ "") (hn : s.isNetworkConnected = true) :
    connect cfg s =
      connectFresh cfg
        (closeCurrent { s with connectionStatus := "connecting", error := none }) := by
  have hb : (!cfg.enabled || cfg.table == "" || !s.isNetworkConnected) = false := by
    simp [he, hn, ht]
  unfold connect
  rw [hb]
  rfl

theorem connect_inv (cfg : RConfig) (s : RState) (h : Inv cfg s) :
    Inv cfg (connect cfg s) := by
  unfold connect
  split
  · exact h
  · have hs1 : Inv cfg { s with connectionStatus := "connecting", error := none } :=
      inv_mono cfg s _ rfl rfl h
    exact (connectFresh_inv cfg _ (closeCurrent_closed cfg _ hs1)
      (routes_closeCurrent cfg _ hs1.2.1)).1

theorem connect_live_one (cfg : RConfig) (s : RState) (h : Inv cfg s)
    (he : cfg.enabled = true) (ht : cfg.table ≠ "") (hn : s.isNetworkConnected = true) :
    liveCount (connect cfg s) = 1 := by
  rw [connect_eq_of_guard cfg s he ht hn]
  have hs1 : Inv cfg { s with connectionStatus := "connecting", error := none } :=
    inv_mono cfg s _ rfl rfl h
  exact (connectFresh_inv cfg _ (closeCurrent_closed cfg _ hs1)
    (routes_closeCurrent cfg _ hs1.2.1)).2

theorem connect_network (cfg : RConfig) (s : RState) :
    (connect cfg s).isNetworkConnected = s.isNetworkConnected := by
  unfold connect
  split
  · rfl
  · show (closeCurrent { s with connectionStatus := "connecting", error := none
      }).isNetworkConnected = s.isNetworkConnected
    exact (closeCurrent_frame _).2.2.1

theorem setChanState_inv (cfg : RConfig) (st : String) (s : RState)
    (h : Inv cfg s) : Inv cfg (setChanState st s) := by
  obtain ⟨h1, h2, h3⟩ := h
  unfold setChanState
  split
  · exact ⟨h1, h2, h3⟩
  next cid href =>
    refine ⟨?_, ?_, ?_⟩
    · intro c hc hop
      simp only [List.mem_map] at hc
      rcases hc with ⟨c0, hc0, hfc⟩
      by_cases hid : c0.id = cid
      · rw [if_pos hid] at hfc
        rw [← hfc] at hop ⊢
        exact h1 c0 hc0 hop
      · rw [if_neg hid] at hfc
        rw [← hfc] at hop ⊢
        exact h1 c0 hc0 hop
    · intro c hc
      simp only [List.mem_map] at hc
      rcases hc with ⟨c0, hc0, hfc⟩
      have h0 := h2 c0 hc0
      by_cases hid : c0.id = cid
      · rw [if_pos hid] at hfc
        rw [← hfc]
        exact h0
      · rw [if_neg hid] at hfc
        rw [← hfc]
        exact h0
    · unfold liveCount at h3 ⊢
      have : ∀ l : List ChannelRec,
          (l.map (fun c => if c.id = cid then { c with chanState := st } else c)).countP
              (fun c => c.isOpen)
            = l.countP (fun c => c.isOpen) := by
        intro l
        induction l with
        | nil => rfl
        | cons a t ih =>
            by_cases hid : a.id = cid <;>
              simp [List.countP_cons, hid, ih]
      rw [this s.channels]
      exact h3

theorem setChanState_frame (st : String) (s : RState) :
    (setChanState st s).channelRef = s.channelRef := by
  unfold setChanState
  split
  · rfl
  · rfl

theorem disconnect_inv (cfg : RConfig) (s : RState) (h : Inv cfg s) :
    Inv cfg (disconnect s) := by
  have hA : Inv cfg { s with connectionStatus := "disconnecting" } :=
    inv_mono cfg s _ rfl rfl h
  have hB : Inv cfg (stopHeartbeat { s with connectionStatus := "disconnecting" }) :=
    inv_mono cfg _ _ (stopHeartbeat_frame _).1 (stopHeartbeat_frame _).2.1 hA
  have hC : Inv cfg
      { stopHeartbeat { s with connectionStatus := "disconnecting" } with retryTimer := none } :=
    inv_mono cfg _ _ rfl rfl hB
  have hD := closeCurrent_inv cfg _ hC
  exact inv_mono cfg _ _ rfl rfl hD

theorem disconnect_live_zero (cfg : RConfig) (s : RState) (h : Inv cfg s) :
    liveCount (disconnect s) = 0 := by
  have hB : Inv cfg (stopHeartbeat { s with connectionStatus := "disconnecting" }) :=
    inv_mono cfg _ _ (stopHeartbeat_frame _).1 (stopHeartbeat_frame _).2.1
      (inv_mono cfg s _ rfl rfl h)
  have hC : Inv cfg
      { stopHeartbeat { s with connectionStatus := "disconnecting" } with retryTimer := none } :=
    inv_mono cfg _ _ rfl rfl hB
  show (disconnect s).channels.countP (fun c => c.isOpen) = 0
  have hch : (disconnect s).channels =
      (closeCurrent
        { stopHeartbeat { s with connectionStatus := "disconnecting" } with
          retryTimer := none }).channels := rfl
  rw [hch]
  exact countP_open_eq_zero _ (closeCurrent_closed cfg _ hC)

theorem disconnect_retryTimer (s : RState) : (disconnect s).retryTimer = none := by
  show (closeCurrent
    { stopHeartbeat { s with connectionStatus := "disconnecting" } with
      retryTimer := none }).retryTimer = none
  exact (closeCurrent_frame _).1

theorem disconnect_hbTimer (s : RState) : (disconnect s).heartbeatTimer = none := by
  show (closeCurrent
    { stopHeartbeat { s with connectionStatus := "disconnecting" } with
      retryTimer := none }).heartbeatTimer = none
  rw [(closeCurrent_frame _).2.1]
  exact stopHeartbeat_timer _

theorem disconnect_channelRef (s : RState) : (disconnect s).channelRef = none := by
  show (closeCurrent
    { stopHeartbeat { s with connectionStatus := "disconnecting" } with
      retryTimer := none }).channelRef = none
  exact closeCurrent_channelRef _

theorem subscribeCallback_inv (cfg : RConfig) (st : String) (err : Option JsError)
    (s : RState) (h : Inv cfg s) : Inv cfg (subscribeCallback cfg st err s) := by
  unfold subscribeCallback
  split
  · exact inv_mono cfg _ _ rfl rfl
      (inv_mono cfg _ _ rfl rfl (setChanState_inv cfg "joined" s h))
  · split
    · have hA := setChanState_inv cfg "errored" s h
      have hB : Inv cfg
          { setChanState "errored" s with
            isConnected := false, connectionStatus := "error"
            error := some (err.getD "Channel subscription error") } :=
        inv_mono cfg _ _ rfl rfl hA
      have hC := inv_mono cfg _ _ (stopHeartbeat_frame _).1 (stopHeartbeat_frame _).2.1 hB
      exact inv_mono cfg _ _ (scheduleRetry_frame cfg _).1 (scheduleRetry_frame cfg _).2 hC
    · split
      · have hA := setChanState_inv cfg "errored" s h
        have hB : Inv cfg
            { setChanState "errored" s with
              isConnected := false, connectionStatus := "timeout"
              error := some "Connection timeout" } :=
          inv_mono cfg _ _ rfl rfl hA
        have hC := inv_mono cfg _ _ (stopHeartbeat_frame _).1 (stopHeartbeat_frame _).2.1 hB
        exact inv_mono cfg _ _ (scheduleRetry_frame cfg _).1 (scheduleRetry_frame cfg _).2 hC
      · split
        · have hA := setChanState_inv cfg "closed" s h
          have hB : Inv cfg
              { setChanState "closed" s with
                isConnected := false, connectionStatus := "disconnected" } :=
            inv_mono cfg _ _ rfl rfl hA
          exact inv_mono cfg _ _ (stopHeartbeat_frame _).1 (stopHeartbeat_frame _).2.1 hB
        · exact h

theorem netInfoEvent_inv (cfg : RConfig) (online : Bool) (s : RState)
    (h : Inv cfg s) : Inv cfg (netInfoEvent cfg online s) := by
  unfold netInfoEvent
  split
  · exact inv_mono cfg s _ rfl rfl h
  · split
    · exact connect_inv cfg _ (inv_mono cfg s _ rfl rfl h)
    · exact inv_mono cfg s _ rfl rfl h

theorem retryFire_inv (cfg : RConfig) (s : RState) (h : Inv cfg s) :
    Inv cfg (retryFire cfg s) := by
  unfold retryFire
  split
  · exact h
  · exact connect_inv cfg _ (inv_mono cfg s _ rfl rfl h)

theorem reconnect_inv (cfg : RConfig) (s : RState) (h : Inv cfg s) :
    Inv cfg (reconnect cfg s) := by
  have hd : Inv cfg (disconnect { s with retryCount := 0 }) :=
    disconnect_inv cfg _ (inv_mono cfg s _ rfl rfl h)
  unfold reconnect
  split
  · exact connect_inv cfg _ hd
  · exact hd

theorem inv_step (cfg : RConfig) (s : RState) (op : ROp) (h : Inv cfg s) :
    Inv cfg (step cfg s op) := by
  cases op with
  | connectOp => exact connect_inv cfg s h
  | disconnectOp => exact disconnect_inv cfg s h
  | reconnectOp => exact reconnect_inv cfg s h
  | subStatus st err => exact subscribeCallback_inv cfg st err s h
  | netOp online => exact netInfoEvent_inv cfg online s h
  | retryFireOp => exact retryFire_inv cfg s h
  | hbTickOp now =>
      exact inv_mono cfg s _ (hbTick_frame now s).1 (hbTick_frame now s).2 h
  | msgOp k p =>
      exact inv_mono cfg s _ (dispatch_frame cfg k p s).1 (dispatch_frame cfg k p s).2 h
  | sendOp e p =>
      exact inv_mono cfg s _ (send_frame e p s).1 (send_frame e p s).2 h
  | trackOp p =>
      exact inv_mono cfg s _ (track_frame p s).1 (track_frame p s).2 h
  | untrackOp =>
      exact inv_mono cfg s _ (untrack_frame s).1 (untrack_frame s).2 h

theorem inv_init (cfg : RConfig) : Inv cfg initState := by
  refine ⟨?_, ?_, ?_⟩
  · intro c hc
    simp [initState] at hc
  · intro c hc
    simp [initState] at hc
  · decide

theorem inv_foldl (cfg : RConfig) (ops : List ROp) :
    ∀ s, Inv cfg s → Inv cfg (ops.foldl (step cfg) s) := by
  induction ops with
  | nil => intro s h; exact h
  | cons op t ih => intro s h; exact ih (step cfg s op) (inv_step cfg s op h)

theorem run_inv (cfg : RConfig) (ops : List ROp) : Inv cfg (run cfg ops) :=
  inv_foldl cfg ops initState (inv_init cfg)

/-- C1: for every retry count below maxAttempts, scheduleRetry arms
exactly one single-shot timer (the single pending-retry slot is
overwritten with a fresh timer) whose delay is baseDelay times 2 to the
retry count, and sets status retrying; at or beyond maxAttempts it arms
no timer (the slot is left untouched) and sets status
max_retries_exceeded. -/
theorem scheduleRetry_backoff (cfg : RConfig) (s : RState) :
    (s.retryCount < cfg.retryAttempts →
      scheduleRetry cfg s =
        { s with
          connectionStatus := "retrying"
          retryTimer := some (s.nextTimerId, cfg.retryDelay * 2 ^ s.retryCount)
          nextTimerId := s.nextTimerId + 1 }) ∧
    (cfg.retryAttempts ≤ s.retryCount →
      scheduleRetry cfg s = { s with connectionStatus := "max_retries_exceeded" }) := by
  constructor
  · intro h
    unfold scheduleRetry
    rw [if_neg (Nat.not_le.mpr h)]
  · intro h
    unfold scheduleRetry
    rw [if_pos h]

/-- Witness for C1: both branches of scheduleRetry at concrete states. -/
theorem scheduleRetry_backoff_witness :
    scheduleRetry cfgW initState =
      { initState with
        connectionStatus := "retrying"
        retryTimer := some (0, 1000)
        nextTimerId := 1 } ∧
    scheduleRetry cfgW exhaustedState =
      { exhaustedState with connectionStatus := "max_retries_exceeded" } := by
  have h1 := (scheduleRetry_backoff cfgW initState).1 (by decide)
  have h2 := (scheduleRetry_backoff cfgW exhaustedState).2 (by decide)
  exact ⟨h1, h2⟩

/-- Counterexample to C2 as stated: calling connect while connected is
not a no-op — it moves status back to connecting and replaces the
channel, so the resulting state differs. -/
theorem connect_not_noop_cex :
    connState.connectionStatus = "connected" ∧
    (connect cfgW connState).connectionStatus = "connecting" ∧
    connect cfgW connState ≠ connState := by
  refine ⟨by decide, by decide, by decide⟩

/-- C2 (amended): connect invoked while connecting or connected is not a
no-op — it tears the existing channel down and opens a fresh one — but
the lone-handle invariant holds: every reachable state has at most one
live channel handle, and after one or two successive connect calls
exactly one live handle exists. -/
theorem connect_single_live_handle (cfg : RConfig) (ops : List ROp)
    (he : cfg.enabled = true) (ht : cfg.table ≠ "")
    (hn : (run cfg ops).isNetworkConnected = true) :
    liveCount (run cfg ops) ≤ 1 ∧
    liveCount (connect cfg (run cfg ops)) = 1 ∧
    liveCount (connect cfg (connect cfg (run cfg ops))) = 1 := by
  have hinv := run_inv cfg ops
  refine ⟨hinv.2.2, connect_live_one cfg _ hinv he ht hn, ?_⟩
  have hinv2 := connect_inv cfg _ hinv
  have hn2 : (connect cfg (run cfg ops)).isNetworkConnected = true := by
    rw [connect_network]
    exact hn
  exact connect_live_one cfg _ hinv2 he ht hn2

/-- Witness for C2 (amended) on the empty trace. -/
theorem connect_single_live_handle_witness :
    liveCount (run cfgW []) ≤ 1 ∧
    liveCount (connect cfgW (run cfgW [])) = 1 ∧
    liveCount (connect cfgW (connect cfgW (run cfgW []))) = 1 :=
  connect_single_live_handle cfgW [] rfl (by decide) rfl

/-- Counterexample to C3 as stated: with enabled false (and an onError
handler registered) connect returns silently — it delivers no
ConfigurationError, indeed no error at all, to onError. -/
theorem connect_disabled_silent_cex :
    cfgDisabled.enabled = false ∧
    cfgDisabled.hasOnError = true ∧
    connect cfgDisabled initState = initState ∧
    (connect cfgDisabled initState).onErrorCalls = [] ∧
    (connect cfgDisabled initState).channelRef = none := by
  refine ⟨rfl, rfl, by decide, by decide, by decide⟩

/-- C3 (amended): connect with enabled false or an empty resource
identifier is a pure no-op — no transport channel opened, no retry
scheduled, and no error delivered to onError, because the state is
returned unchanged. -/
theorem connect_invalid_config_noop (cfg : RConfig) (s : RState)
    (h : cfg.enabled = false ∨ cfg.table = "") :
    connect cfg s = s := by
  apply connect_noop_of_guard
  rcases h with h | h <;> simp [h]

/-- Witness for C3 (amended) at a connected state. -/
theorem connect_invalid_config_noop_witness :
    connect cfgDisabled connState = connState :=
  connect_invalid_config_noop cfgDisabled connState (Or.inl rfl)

/-- C4: after disconnect completes there are exactly zero pending timers
(retry and heartbeat slots both cleared), the channel handle is gone and
no channel is left live, retryCount is 0 and status is disconnected —
for every state, with the live-channel count shown for every reachable
state. -/
theorem disconnect_clean (cfg : RConfig) (ops : List ROp) (s : RState) :
    (disconnect s).retryTimer = none ∧
    (disconnect s).heartbeatTimer = none ∧
    (disconnect s).channelRef = none ∧
    (disconnect s).retryCount = 0 ∧
    (disconnect s).connectionStatus = "disconnected" ∧
    (disconnect s).isConnected = false ∧
    liveCount (disconnect (run cfg ops)) = 0 :=
  ⟨disconnect_retryTimer s, disconnect_hbTimer s, disconnect_channelRef s,
   rfl, rfl, rfl, disconnect_live_zero cfg _ (run_inv cfg ops)⟩

/-- Counterexample to C5 as stated: in the reachable state produced by
calling connect again while connected, status is connecting (not
connected) yet the isConnected flag is still set, so send and
trackPresence raise nothing and do perform transport calls. -/
theorem send_while_connecting_cex :
    reconnState.connectionStatus = "connecting" ∧
    reconnState.isConnected = true ∧
    (send "ping" 7 reconnState).2 = none ∧
    (send "ping" 7 reconnState).1.transportCalls =
      reconnState.transportCalls ++ [TransportCall.sendBroadcast 1 "ping" 7] ∧
    (trackPresence 9 reconnState).2 = none := by
  refine ⟨by decide, by decide, by decide, by decide, by decide⟩

/-- C5 (amended): the actual guard is the isConnected flag and the
channel handle, not status — whenever the handle is absent or the flag
is false, send and trackPresence raise NotConnectedError synchronously
and leave the state (hence the transport log) unchanged. -/
theorem send_track_guard (e : String) (p q : Nat) (s : RState)
    (h : s.channelRef = none ∨ s.isConnected = false) :
    send e p s = (s, some notConnectedMsg) ∧
    trackPresence q s = (s, some notConnectedMsg) := by
  rcases h with h | h
  · constructor
    · unfold send
      rw [h]
    · unfold trackPresence
      rw [h]
  · constructor
    · unfold send
      split
      · rfl
      · rw [h]
        rfl
    · unfold trackPresence
      split
      · rfl
      · rw [h]
        rfl

/-- Witness for C5 (amended) at the initial state. -/
theorem send_track_guard_witness :
    send "x" 1 initState = (initState, some notConnectedMsg) ∧
    trackPresence 2 initState = (initState, some notConnectedMsg) :=
  send_track_guard "x" 1 2 initState (Or.inl rfl)

/-- C6: a registered handler that raises on an inbound routed message is
caught — the error is appended to the onError deliveries, status, the
connected flag, the channel handle and the channel registry are all
unchanged, the handler invocation is still recorded, and routing of
subsequent messages (any kind) is exactly as before. -/
theorem handler_error_isolated (cfg : RConfig) (k k2 : OpKind) (p : Nat)
    (s : RState) (f : Nat → Option JsError) (e : JsError)
    (hf : handlerFor cfg k = some f) (he : f p = some e)
    (hr : routesTo k s = true) (ho : cfg.hasOnError = true) :
    (dispatchMessage cfg k p s).connectionStatus = s.connectionStatus ∧
    (dispatchMessage cfg k p s).isConnected = s.isConnected ∧
    (dispatchMessage cfg k p s).channelRef = s.channelRef ∧
    (dispatchMessage cfg k p s).channels = s.channels ∧
    (dispatchMessage cfg k p s).onErrorCalls = s.onErrorCalls ++ [e] ∧
    (dispatchMessage cfg k p s).handlerCalls = s.handlerCalls ++ [(kindName k, p)] ∧
    routesTo k2 (dispatchMessage cfg k p s) = routesTo k2 s := by
  have hd : dispatchMessage cfg k p s =
      { s with
        handlerCalls := s.handlerCalls ++ [(kindName k, p)]
        onErrorCalls := s.onErrorCalls ++ [e] } := by
    unfold dispatchMessage
    rw [hr, if_pos rfl, hf]
    show (match f p with
      | none => { s with handlerCalls := s.handlerCalls ++ [(kindName k, p)] }
      | some e2 =>
          if cfg.hasOnError = true then
            { s with
              handlerCalls := s.handlerCalls ++ [(kindName k, p)]
              onErrorCalls := s.onErrorCalls ++ [e2] }
          else { s with handlerCalls := s.handlerCalls ++ [(kindName k, p)] }) = _
    rw [he, ho]
    rfl
  rw [hd]
  exact ⟨rfl, rfl, rfl, rfl, rfl, rfl, rfl⟩

/-- Witness for C6: the raising insert handler of cfgThrow on a
connected state. -/
theorem handler_error_isolated_witness :
    (dispatchMessage cfgThrow OpKind.insert 5 throwConnState).onErrorCalls =
      throwConnState.onErrorCalls ++ ["boom"] ∧
    (dispatchMessage cfgThrow OpKind.insert 5 throwConnState).connectionStatus =
      throwConnState.connectionStatus ∧
    routesTo OpKind.update (dispatchMessage cfgThrow OpKind.insert 5 throwConnState) =
      routesTo OpKind.update throwConnState := by
  have h := handler_error_isolated cfgThrow OpKind.insert OpKind.update 5 throwConnState
    (fun _ => some "boom") "boom" rfl rfl (by decide) rfl
  exact ⟨h.2.2.2.2.1, h.1, h.2.2.2.2.2.2⟩

theorem routesTo_false (cfg : RConfig) (s : RState) (k : OpKind)
    (h : Inv cfg s) (hk : eventAllowsKind cfg.event k = false) :
    routesTo k s = false := by
  unfold routesTo
  split
  · rfl
  next cid href =>
    rw [List.any_eq_false]
    intro c hc
    have hm := h.2.1 c hc
    have hrf : routeFor k c = false := by
      cases k with
      | insert => exact hm.1.trans hk
      | update => exact hm.2.1.trans hk
      | delete => exact hm.2.2.trans hk
    simp [hrf]

/-- C7: an operation kind the event mask does not allow has no route
registered on the channel of any reachable state, so an inbound message
of that kind is never dispatched: the state is returned unchanged — no
handler invocation, no error, no teardown. -/
theorem masked_kind_never_dispatched (cfg : RConfig) (ops : List ROp)
    (k : OpKind) (p : Nat) (hk : eventAllowsKind cfg.event k = false) :
    routesTo k (run cfg ops) = false ∧
    dispatchMessage cfg k p (run cfg ops) = run cfg ops := by
  have hr := routesTo_false cfg (run cfg ops) k (run_inv cfg ops) hk
  refine ⟨hr, ?_⟩
  unfold dispatchMessage
  rw [hr]
  rfl

/-- Witness for C7: with eventMask INSERT only, an inbound UPDATE is
never routed to onUpdate (which would raise if invoked) and changes
nothing. -/
theorem masked_kind_never_dispatched_witness :
    routesTo OpKind.update insertOnlyConnState = false ∧
    dispatchMessage cfgInsertOnly OpKind.update 7 insertOnlyConnState =
      insertOnlyConnState :=
  masked_kind_never_dispatched cfgInsertOnly
    [ROp.connectOp, ROp.subStatus "SUBSCRIBED" none] OpKind.update 7 (by decide)

/-- Counterexample to C8 as stated: going offline while connected does
move status to network_disconnected and leaves retryCount alone, but the
heartbeat timer is still armed and the channel is still live — the
listener neither stops the heartbeat nor tears the channel down. -/
theorem offline_no_teardown_cex :
    connState.isConnected = true ∧
    (netInfoEvent cfgW false connState).connectionStatus = "network_disconnected" ∧
    (netInfoEvent cfgW false connState).heartbeatTimer = some 0 ∧
    (netInfoEvent cfgW false connState).channelRef = some 0 ∧
    liveCount (netInfoEvent cfgW false connState) = 1 ∧
    (netInfoEvent cfgW false connState).retryCount = connState.retryCount := by
  refine ⟨by decide, by decide, by decide, by decide, by decide, by decide⟩

/-- C8 (amended): offline while the connected flag is set moves to
network_disconnected and clears the flag, changing nothing else — the
heartbeat timer and channel stay in place, retryCount and the retry
timer are untouched and no retry is scheduled; offline while not
connected only records reachability; online while not connected with
enabled true re-runs connect. -/
theorem offline_online_transitions (cfg : RConfig) (s : RState) :
    (s.isConnected = true →
      netInfoEvent cfg false s =
        { s with
          isNetworkConnected := false
          connectionStatus := "network_disconnected"
          isConnected := false }) ∧
    (s.isConnected = false →
      netInfoEvent cfg false s = { s with isNetworkConnected := false }) ∧
    (s.isConnected = false → cfg.enabled = true →
      netInfoEvent cfg true s = connect cfg { s with isNetworkConnected := true }) := by
  refine ⟨?_, ?_, ?_⟩
  · intro h
    have hc : (!false && s.isConnected) = true := by rw [h]; rfl
    unfold netInfoEvent
    rw [if_pos hc]
  · intro h
    have hc : ¬ ((!false && s.isConnected) = true) := by
      rw [h]
      decide
    have hc2 : ¬ ((false && !s.isConnected && cfg.enabled) = true) := by
      simp
    unfold netInfoEvent
    rw [if_neg hc, if_neg hc2]
  · intro h he
    have hc : ¬ ((!true && s.isConnected) = true) := by simp
    have hc2 : (true && !s.isConnected && cfg.enabled) = true := by
      rw [h, he]; rfl
    unfold netInfoEvent
    rw [if_neg hc, if_pos hc2]

/-- Witness for C8 (amended): going offline at the connected state, then
back online. -/
theorem offline_online_transitions_witness :
    netInfoEvent cfgW false connState =
      { connState with
        isNetworkConnected := false
        connectionStatus := "network_disconnected"
        isConnected := false } ∧
    netInfoEvent cfgW true (netInfoEvent cfgW false connState) =
      connect cfgW
        { netInfoEvent cfgW false connState with isNetworkConnected := true } := by
  have h := offline_online_transitions cfgW connState
  have h2 := offline_online_transitions cfgW (netInfoEvent cfgW false connState)
  exact ⟨h.1 (by decide), h2.2.2 (by decide) rfl⟩

theorem stopHeartbeat_noop (x : RState) (h : x.heartbeatTimer = none) :
    stopHeartbeat x = x := by
  unfold stopHeartbeat
  split
  next t heq =>
    rw [h] at heq
    exact Option.noConfusion heq
  · rfl

theorem hbTick_noop_of_none (now : Nat) (x : RState)
    (h : x.heartbeatTimer = none) : hbTick now x = x := by
  unfold hbTick
  rw [h]

theorem hbTick_armed_joined (now : Nat) (s : RState) (t cid : Nat)
    (ht : s.heartbeatTimer = some t) (hr : s.channelRef = some cid)
    (hj : chanJoined s = true) :
    hbTick now s =
      { s with
        transportCalls :=
          s.transportCalls ++ [TransportCall.sendBroadcast cid "heartbeat" now]
        lastHeartbeat := some now } := by
  unfold hbTick
  split
  next hnone =>
    rw [ht] at hnone
    exact Option.noConfusion hnone
  next t2 hsome =>
    rw [if_pos hj]
    split
    next cid2 hr2 =>
      have hcc : cid2 = cid := by
        rw [hr2] at hr
        exact Option.some.inj hr
      rw [hcc]
    next hrnone =>
      rw [hrnone] at hr
      exact Option.noConfusion hr

/-- C9: the heartbeat slot holds at most one timer and starting replaces
any previous one; a tick sends the liveness broadcast and records
lastHeartbeat exactly when the channel state is joined, and does nothing
when the timer is cleared or the channel is not joined; stopHeartbeat
clears unconditionally and is idempotent; after disconnect the timer is
gone and a later tick sends nothing. -/
theorem heartbeat_monitor (s : RState) (now : Nat) :
    (startHeartbeat s).heartbeatTimer = some s.nextTimerId ∧
    (s.heartbeatTimer = none → hbTick now s = s) ∧
    (chanJoined s = false → hbTick now s = s) ∧
    (∀ t, s.heartbeatTimer = some t → chanJoined s = true →
      ∃ cid, s.channelRef = some cid ∧
        hbTick now s =
          { s with
            transportCalls :=
              s.transportCalls ++ [TransportCall.sendBroadcast cid "heartbeat" now]
            lastHeartbeat := some now }) ∧
    (stopHeartbeat s).heartbeatTimer = none ∧
    stopHeartbeat (stopHeartbeat s) = stopHeartbeat s ∧
    (disconnect s).heartbeatTimer = none ∧
    hbTick now (disconnect s) = disconnect s := by
  refine ⟨rfl, hbTick_noop_of_none now s, ?_, ?_, stopHeartbeat_timer s,
    stopHeartbeat_noop _ (stopHeartbeat_timer s), disconnect_hbTimer s,
    hbTick_noop_of_none now _ (disconnect_hbTimer s)⟩
  · intro hj
    unfold hbTick
    split
    · rfl
    · rw [hj]
      rfl
  · intro t ht hj
    have hcid : ∃ cid, s.channelRef = some cid := by
      unfold chanJoined at hj
      split at hj
      · exact absurd hj (by decide)
      next cid href => exact ⟨cid, href⟩
    rcases hcid with ⟨cid, hr⟩
    exact ⟨cid, hr, hbTick_armed_joined now s t cid ht hr hj⟩

/-- Witness for C9: no tick effect at the initial state; one heartbeat
send with lastHeartbeat recorded at the connected (joined) state. -/
theorem heartbeat_monitor_witness :
    hbTick 42 initState = initState ∧
    (∃ cid, connState.channelRef = some cid ∧
      hbTick 42 connState =
        { connState with
          transportCalls :=
            connState.transportCalls ++ [TransportCall.sendBroadcast cid "heartbeat" 42]
          lastHeartbeat := some 42 }) := by
  have h1 := heartbeat_monitor initState 42
  have h2 := heartbeat_monitor connState 42
  exact ⟨h1.2.1 rfl, h2.2.2.2.1 0 (by decide) (by decide)⟩

/-- Counterexample to C10 as stated: mid-connect, status is connecting
(not connected) yet a live channel handle exists, and untrackPresence
does perform a transport call in that state — states with status other
than connected are not all handle-free. -/
theorem untrack_mid_connect_cex :
    midConnectState.connectionStatus = "connecting" ∧
    midConnectState.channelRef = some 0 ∧
    (untrackPresence midConnectState).1.transportCalls =
      midConnectState.transportCalls ++ [TransportCall.untrackCall 0] ∧
    (untrackPresence midConnectState).2 = none := by
  refine ⟨by decide, by decide, by decide, by decide⟩

/-- C10 (amended): whenever no channel handle exists, untrackPresence
returns unchanged state with no error and no transport call; and in
every state it raises nothing — unlike trackPresence it never fails
with NotConnectedError (when a handle exists while not connected, it
issues the untrack transport call instead of failing). -/
theorem untrack_no_handle_noop (s : RState) (h : s.channelRef = none) :
    untrackPresence s = (s, none) ∧
    ∀ s2 : RState, (untrackPresence s2).2 = none := by
  constructor
  · unfold untrackPresence
    rw [h]
  · intro s2
    unfold untrackPresence
    split
    · rfl
    · rfl

/-- Witness for C10 (amended) at the initial state. -/
theorem untrack_no_handle_noop_witness :
    untrackPresence initState = (initState, none) ∧
    ∀ s2 : RState, (untrackPresence s2).2 = none :=
  untrack_no_handle_noop initState rfl

end Realtime
